import Mathlib

/-!
Verification of the two diagnostic scripts of the
Cognitive-Triangulation-Pipeline repository:

* `src/analyzeDatabase.py` — the Domain Report Generator (`analyze_database`);
* `src/checkTables.py` — the Table Lister (module body).

The scripts run fixed read-only SQLite queries and print summaries.  We embed
the database as lists of rows (one list per table, in natural/insertion order,
which is the scan order SQLite uses for these unordered queries), and each
script as a pure function that returns

* the ordered trace of executed queries (one trace tag per `cursor.execute`),
* the ordered list of printed items (one item per `print`, carrying the
  semantic payload of the printed f-string),
* whether a query raised (a missing table makes its query raise
  `sqlite3.OperationalError`, aborting the rest of the script), and
* how many times `conn.close()` ran.

SQL semantics used: `COUNT(*)` is list length; `LIMIT n` is `List.take n`;
`GROUP BY k` partitions rows by key (SQL `GROUP BY` treats NULLs as equal,
matching decidable equality on `SqlVal`); `WHERE x = 'lit'` is never satisfied
by NULL; `x IS NULL OR x = ''` is satisfied by NULL or the empty string.
-/

/-- An SQLite storage value as far as these scripts observe it:
NULL, an integer, or a text value. -/
inductive SqlVal where
  | null : SqlVal
  | int (i : Int) : SqlVal
  | text (s : String) : SqlVal
deriving DecidableEq, Repr

/-- A row of the `files` table, restricted to the columns the scripts read
(`SELECT file_path, status FROM files`, analyzeDatabase.py line 15). -/
structure FileRow where
  file_path : SqlVal
  status : SqlVal
deriving DecidableEq, Repr

/-- A row of the `pois` table with the columns the scripts read
(`file_path, name, type, start_line, end_line`, analyzeDatabase.py lines 33,
81, 83, 89); these are also taken as the full schema of `pois`, in schema
order, for the `SELECT *` dump of lines 89-95. -/
structure PoiRow where
  file_path : SqlVal
  name : SqlVal
  type : SqlVal
  start_line : SqlVal
  end_line : SqlVal
deriving DecidableEq, Repr

/-- A row of the `relationships` table, restricted to the columns read
(`type`, `status`; analyzeDatabase.py lines 45, 50, 56). -/
structure RelRow where
  type : SqlVal
  status : SqlVal
deriving DecidableEq, Repr

/-- A row of the `transactional_outbox` table, restricted to the columns read
(`event_type`, `processed`; analyzeDatabase.py line 72). -/
structure OutboxRow where
  event_type : SqlVal
  processed : SqlVal
deriving DecidableEq, Repr

/-- The database state seen by `analyze_database`: the five named tables.
`none` models a missing table, whose very first query raises; the rows of
`relationship_evidence` are only ever counted (line 63), so they carry no
fields. -/
structure DB where
  files : Option (List FileRow)
  pois : Option (List PoiRow)
  relationships : Option (List RelRow)
  relationship_evidence : Option (List Unit)
  transactional_outbox : Option (List OutboxRow)

/-- Keys of a `GROUP BY key` query, in first-occurrence order, without
duplicates. -/
def keysOf [DecidableEq κ] (key : α → κ) : List α → List κ
  | [] => []
  | a :: l => key a :: (keysOf key l).filter (fun k => decide (k ≠ key a))

/-- Result set of `SELECT key, COUNT(*) FROM t GROUP BY key`: one pair per
distinct key, with the number of rows having that key. -/
def groupCounts [DecidableEq κ] (key : α → κ) (l : List α) : List (κ × Nat) :=
  (keysOf key l).map (fun k => (k, l.countP (fun a => decide (key a = k))))

/-- One trace tag per `cursor.execute` call of `analyze_database`
(src/analyzeDatabase.py), named after the query's purpose; the line numbers
refer to that file. -/
inductive Query where
  | countFiles            -- line 11: SELECT COUNT(*) FROM files
  | sampleFiles           -- line 15: SELECT file_path, status FROM files LIMIT 5
  | countPois             -- line 23: SELECT COUNT(*) FROM pois
  | poisByType            -- line 27: SELECT type, COUNT(*) FROM pois GROUP BY type
  | samplePois            -- line 33: SELECT ... FROM pois LIMIT 5
  | countRelationships    -- line 41: SELECT COUNT(*) FROM relationships
  | relsByType            -- line 45: SELECT type, COUNT(*) FROM relationships GROUP BY type
  | relsByStatus          -- line 50: SELECT status, COUNT(*) FROM relationships GROUP BY status
  | countValidated        -- line 56: SELECT COUNT(*) ... WHERE status = 'validated'
  | countEvidence         -- line 63: SELECT COUNT(*) FROM relationship_evidence
  | countOutbox           -- line 68: SELECT COUNT(*) FROM transactional_outbox
  | outboxByTypeProcessed -- line 72: SELECT event_type, processed, COUNT(*) ... GROUP BY ...
  | countEmptyNames       -- line 81: SELECT COUNT(*) FROM pois WHERE name IS NULL OR name = ''
  | countEmptyTypes       -- line 83: SELECT COUNT(*) FROM pois WHERE type IS NULL OR type = ''
  | samplePoiAll          -- line 89: SELECT * FROM pois LIMIT 1
deriving DecidableEq, Repr

/-- One item per `print` of `analyze_database`, carrying the semantic payload
of the printed line; the line numbers refer to src/analyzeDatabase.py. -/
inductive Out where
  | header                                          -- line 8
  | filesProcessed (n : Nat)                        -- line 13
  | sampleFilesHeader                               -- line 16
  | sampleFile (file_path status : SqlVal)          -- line 18
  | separator                                       -- lines 20, 38, 60, 77
  | poisExtracted (n : Nat)                         -- line 25
  | poiTypesHeader                                  -- line 28
  | poiTypeCount (t : SqlVal) (n : Nat)             -- line 30
  | samplePoisHeader                                -- line 34
  | samplePoi (file_path name t start_line end_line : SqlVal) -- line 36
  | relationshipsDiscovered (n : Nat)               -- line 43
  | relTypesHeader                                  -- line 46
  | relTypeCount (t : SqlVal) (n : Nat)             -- line 48
  | relStatusesHeader                               -- line 51
  | relStatusCount (s : SqlVal) (n : Nat)           -- line 53
  | validatedRelationships (n : Nat)                -- line 58
  | evidenceEntries (n : Nat)                       -- line 65
  | outboxEntries (n : Nat)                         -- line 70
  | outboxHeader                                    -- line 73
  | outboxCount (event_type processed : SqlVal) (n : Nat) -- line 75
  | emptyNames (n : Nat)                            -- line 85
  | emptyTypes (n : Nat)                            -- line 86
  | samplePoiFullHeader                             -- line 92
  | poiField (col : String) (v : SqlVal)            -- line 95
deriving DecidableEq, Repr

/-- Result of one run of a script: the executed queries in order, the printed
items in order, whether a query raised (aborting the rest of the run), and
how many times the connection was closed. -/
structure Report where
  queries : List Query
  output : List Out
  errored : Bool
  closes : Nat
deriving DecidableEq, Repr

/-- The `name IS NULL OR name = ''` / `type IS NULL OR type = ''` predicate of
analyzeDatabase.py lines 81 and 83. -/
def isEmptyOrNull (v : SqlVal) : Bool :=
  decide (v = SqlVal.null ∨ v = SqlVal.text "")

/-- Shallow embedding of `analyze_database` (src/analyzeDatabase.py lines
4-97).  Each `match` on a table mirrors one `cursor.execute` that raises when
the table is missing (`none`); each `if` mirrors the corresponding guard in
the source; `conn.close()` (line 97) is only reached when no query raised. -/
def analyze_database (db : DB) : Report :=
  let output0 : List Out := [Out.header]
  let queries1 : List Query := [Query.countFiles]
  match db.files with
  | none => ⟨queries1, output0, true, 0⟩
  | some files =>
    let file_count := files.length
    let output1 := output0 ++ [Out.filesProcessed file_count]
    let qo2 :=
      if file_count > 0 then
        (queries1 ++ [Query.sampleFiles],
         output1 ++ [Out.sampleFilesHeader] ++
           (files.take 5).map (fun r => Out.sampleFile r.file_path r.status))
      else (queries1, output1)
    let output2 := qo2.2 ++ [Out.separator]
    let queries3 := qo2.1 ++ [Query.countPois]
    match db.pois with
    | none => ⟨queries3, output2, true, 0⟩
    | some pois =>
      let poi_count := pois.length
      let output3 := output2 ++ [Out.poisExtracted poi_count]
      let qo4 :=
        if poi_count > 0 then
          (queries3 ++ [Query.poisByType, Query.samplePois],
           output3 ++ [Out.poiTypesHeader]
             ++ (groupCounts (fun p => p.type) pois).map
                  (fun g => Out.poiTypeCount g.1 g.2)
             ++ [Out.samplePoisHeader]
             ++ (pois.take 5).map
                  (fun p => Out.samplePoi p.file_path p.name p.type p.start_line p.end_line))
        else (queries3, output3)
      let output4 := qo4.2 ++ [Out.separator]
      let queries5 := qo4.1 ++ [Query.countRelationships]
      match db.relationships with
      | none => ⟨queries5, output4, true, 0⟩
      | some relationships =>
        let rel_count := relationships.length
        let output5 := output4 ++ [Out.relationshipsDiscovered rel_count]
        let qo6 :=
          if rel_count > 0 then
            (queries5 ++ [Query.relsByType, Query.relsByStatus, Query.countValidated],
             output5 ++ [Out.relTypesHeader]
               ++ (groupCounts (fun r => r.type) relationships).map
                    (fun g => Out.relTypeCount g.1 g.2)
               ++ [Out.relStatusesHeader]
               ++ (groupCounts (fun r => r.status) relationships).map
                    (fun g => Out.relStatusCount g.1 g.2)
               ++ [Out.validatedRelationships
                    (relationships.countP (fun r => decide (r.status = SqlVal.text "validated")))])
          else (queries5, output5)
        let output6 := qo6.2 ++ [Out.separator]
        let queries7 := qo6.1 ++ [Query.countEvidence]
        match db.relationship_evidence with
        | none => ⟨queries7, output6, true, 0⟩
        | some evidence =>
          let output7 := output6 ++ [Out.evidenceEntries evidence.length]
          let queries8 := queries7 ++ [Query.countOutbox]
          match db.transactional_outbox with
          | none => ⟨queries8, output7, true, 0⟩
          | some outbox =>
            let outbox_count := outbox.length
            let output8 := output7 ++ [Out.outboxEntries outbox_count]
            let qo9 :=
              if outbox_count > 0 then
                (queries8 ++ [Query.outboxByTypeProcessed],
                 output8 ++ [Out.outboxHeader]
                   ++ (groupCounts (fun o => (o.event_type, o.processed)) outbox).map
                        (fun g => Out.outboxCount g.1.1 g.1.2 g.2))
              else (queries8, output8)
            let output9 := qo9.2 ++ [Out.separator]
            let qo10 :=
              if poi_count > 0 then
                let empty_names := pois.countP (fun p => isEmptyOrNull p.name)
                let empty_types := pois.countP (fun p => isEmptyOrNull p.type)
                let queriesQ := qo9.1 ++
                  [Query.countEmptyNames, Query.countEmptyTypes, Query.samplePoiAll]
                let outputQ := output9 ++
                  [Out.emptyNames empty_names, Out.emptyTypes empty_types]
                match pois.head? with
                | some p =>
                  (queriesQ, outputQ ++ [Out.samplePoiFullHeader,
                     Out.poiField "file_path" p.file_path,
                     Out.poiField "name" p.name,
                     Out.poiField "type" p.type,
                     Out.poiField "start_line" p.start_line,
                     Out.poiField "end_line" p.end_line])
                | none => (queriesQ, outputQ)
              else (qo9.1, output9)
            ⟨qo10.1, qo10.2, false, 1⟩

/-- Exit status of a script run: 0 on success, nonzero (here 1) when an
uncaught exception terminated the interpreter. -/
def exitCode (r : Report) : Nat :=
  if r.errored then 1 else 0

/-- A `(name, declared type)` column entry as reported by
`PRAGMA table_info` (`col[1]`, `col[2]` in src/checkTables.py lines 20-21). -/
structure ColumnInfo where
  name : String
  type : String
deriving DecidableEq, Repr

/-- One user-defined table of the database as the Table Lister sees it: its
catalog name, its columns in schema order, and its current number of rows.
Row contents are never read by checkTables.py, only counted (line 24). -/
structure TableInfo where
  name : String
  columns : List ColumnInfo
  rowCount : Nat
deriving DecidableEq, Repr

/-- The database as seen through `sqlite_master`: the catalog's list of
user-defined tables, in catalog order.  SQLite guarantees distinct table
names; theorems assume that where needed. -/
structure SchemaDB where
  tables : List TableInfo
deriving DecidableEq, Repr

/-- Whether a character may appear in a plain (unquoted) SQL identifier. -/
def isSqlIdentChar (c : Char) : Bool :=
  c.isAlpha || c.isDigit || c = '_'

/-- Whether a table name can be spliced into SQL text unquoted and still
parse as a reference to that table, as checkTables.py does at lines 18 and 24
(`PRAGMA table_info({table_name})`, `SELECT COUNT(*) FROM {table_name}`): the
name must be nonempty, start with a letter or underscore, and continue with
identifier characters only.  (Reserved-word table names are outside this model.)  A name failing
this — one with a space, hyphen, quote, etc. — makes the interpolated SQL a
syntax error and the `execute` raise. -/
def isSqlIdent (s : String) : Bool :=
  match s.data with
  | [] => false
  | c :: cs => (c.isAlpha || c = '_') && cs.all isSqlIdentChar

/-- One trace tag per `cursor.execute` of checkTables.py: the catalog query
(line 7) and, per table, the interpolated `PRAGMA table_info` (line 18) and
`SELECT COUNT(*)` (line 24). -/
inductive CQuery where
  | masterTables
  | tableInfo (tbl : String)
  | countRows (tbl : String)
deriving DecidableEq, Repr

/-- One item per `print` of checkTables.py, with its semantic payload;
line numbers refer to that file. -/
inductive COut where
  | tablesHeader                       -- line 10
  | tableName (s : String)             -- line 12
  | structureHeader (s : String)       -- line 17
  | columnLine (name type : String)    -- line 21
  | rowCount (n : Nat)                 -- line 26
deriving DecidableEq, Repr

/-- Result of a Table Lister run, mirroring `Report`. -/
structure CheckReport where
  queries : List CQuery
  output : List COut
  errored : Bool
  closes : Nat
deriving DecidableEq, Repr

/-- The second loop of checkTables.py (lines 15-26): for each catalog table,
print the structure header, run the interpolated `PRAGMA table_info` (which
raises on a non-identifier name, aborting the script), print each column's
name and type, run the interpolated `SELECT COUNT(*)` (same interpolation,
same name, so it parses exactly when the PRAGMA did), and print the row
count.  `conn.close()` (line 28) runs only if the loop finishes. -/
def checkTablesLoop : List TableInfo → List CQuery → List COut → CheckReport
  | [], qs, out => ⟨qs, out, false, 1⟩
  | t :: rest, qs, out =>
    let out1 := out ++ [COut.structureHeader t.name]
    let qs1 := qs ++ [CQuery.tableInfo t.name]
    if isSqlIdent t.name then
      let out2 := out1 ++ t.columns.map (fun c => COut.columnLine c.name c.type)
      let qs2 := qs1 ++ [CQuery.countRows t.name]
      let out3 := out2 ++ [COut.rowCount t.rowCount]
      checkTablesLoop rest qs2 out3
    else ⟨qs1, out1, true, 0⟩

/-- Shallow embedding of the checkTables.py module body (lines 3-28): query
the catalog, print the header and every table name, then inspect each table
in turn via `checkTablesLoop`. -/
def checkTables (db : SchemaDB) : CheckReport :=
  let qs := [CQuery.masterTables]
  let out := [COut.tablesHeader] ++ db.tables.map (fun t => COut.tableName t.name)
  checkTablesLoop db.tables qs out

/-- Exit status of a Table Lister run. -/
def cExitCode (r : CheckReport) : Nat :=
  if r.errored then 1 else 0

/-- Direct `SELECT COUNT(*) FROM tbl` against the catalog: the row count of
the (first) table of that name, if it exists.  Used to state that the count
the Table Lister prints agrees with an independent count query. -/
def count_star (db : SchemaDB) (tbl : String) : Option Nat :=
  (db.tables.find? (fun t => t.name == tbl)).map (fun t => t.rowCount)

/-- The `sampleFile` items of a report, in order (file_path, status). -/
def sampleFileItems (out : List Out) : List (SqlVal × SqlVal) :=
  out.filterMap (fun o => match o with
    | Out.sampleFile p s => some (p, s)
    | _ => none)

/-- The `samplePoi` items of a report, in order. -/
def samplePoiItems (out : List Out) :
    List (SqlVal × SqlVal × SqlVal × SqlVal × SqlVal) :=
  out.filterMap (fun o => match o with
    | Out.samplePoi p n t s e => some (p, n, t, s, e)
    | _ => none)

/-- The per-group counts of the printed POI-by-type breakdown, in order. -/
def poiTypeCountItems (out : List Out) : List Nat :=
  out.filterMap (fun o => match o with
    | Out.poiTypeCount _ n => some n
    | _ => none)

/-- The per-group counts of the printed relationships-by-type breakdown. -/
def relTypeCountItems (out : List Out) : List Nat :=
  out.filterMap (fun o => match o with
    | Out.relTypeCount _ n => some n
    | _ => none)

/-- The per-group counts of the printed relationships-by-status breakdown. -/
def relStatusCountItems (out : List Out) : List Nat :=
  out.filterMap (fun o => match o with
    | Out.relStatusCount _ n => some n
    | _ => none)

/-- The per-group counts of the printed outbox breakdown. -/
def outboxCountItems (out : List Out) : List Nat :=
  out.filterMap (fun o => match o with
    | Out.outboxCount _ _ n => some n
    | _ => none)

/-- The values of the printed `POIs with empty names:` lines, in order. -/
def emptyNameItems (out : List Out) : List Nat :=
  out.filterMap (fun o => match o with
    | Out.emptyNames n => some n
    | _ => none)

/-- The values of the printed `POIs with empty types:` lines, in order. -/
def emptyTypeItems (out : List Out) : List Nat :=
  out.filterMap (fun o => match o with
    | Out.emptyTypes n => some n
    | _ => none)

/-- All five tables exist in the database. -/
def allTablesPresent (db : DB) : Prop :=
  db.files.isSome ∧ db.pois.isSome ∧ db.relationships.isSome ∧
  db.relationship_evidence.isSome ∧ db.transactional_outbox.isSome

/-- Which query of `analyze_database` raises against a given database:
exactly the first `COUNT(*)` on a missing table (every later query on a table
re-reads a table already successfully counted). -/
def queryFails (db : DB) : Query → Prop
  | Query.countFiles => db.files = none
  | Query.countPois => db.pois = none
  | Query.countRelationships => db.relationships = none
  | Query.countEvidence => db.relationship_evidence = none
  | Query.countOutbox => db.transactional_outbox = none
  | _ => False
/-- The `poiField` items of the full-row POI dump, in order. -/
def poiFieldItems (out : List Out) : List (String × SqlVal) :=
  out.filterMap (fun o => match o with
    | Out.poiField c v => some (c, v)
    | _ => none)

/-- The detail (non-count) queries of the `pois` table: its group-by
breakdown, its 5-row sample, the two data-quality counts and the full-row
dump — the queries guarded by `poi_count > 0` (analyzeDatabase.py lines 26
and 80). -/
def poisDetailQueries : List Query :=
  [Query.poisByType, Query.samplePois, Query.countEmptyNames,
   Query.countEmptyTypes, Query.samplePoiAll]

/-- The detail queries of the `relationships` table, guarded by
`rel_count > 0` (analyzeDatabase.py line 44). -/
def relsDetailQueries : List Query :=
  [Query.relsByType, Query.relsByStatus, Query.countValidated]

/-- The report produced when all five tables exist with the given rows. -/
def reportOf (fs : List FileRow) (ps : List PoiRow) (rs : List RelRow)
    (es : List Unit) (os : List OutboxRow) : Report :=
  analyze_database ⟨some fs, some ps, some rs, some es, some os⟩

/-- The database in which all five tables exist and are empty. -/
def emptyDB : DB :=
  ⟨some [], some [], some [], some [], some []⟩

theorem keysOf_nodup [DecidableEq κ] (key : α → κ) (l : List α) :
    (keysOf key l).Nodup := by
  induction l with
  | nil => simp [keysOf]
  | cons a l ih =>
    simp only [keysOf, List.nodup_cons]
    constructor
    · intro hmem
      have := List.of_mem_filter hmem
      simp at this
    · exact ih.filter _

theorem mem_keysOf [DecidableEq κ] (key : α → κ) (l : List α) (a : α)
    (ha : a ∈ l) : key a ∈ keysOf key l := by
  induction l with
  | nil => cases ha
  | cons b l ih =>
    simp only [keysOf]
    rcases List.mem_cons.mp ha with h | h
    · subst h; exact List.mem_cons_self _ _
    · by_cases hk : key a = key b
      · simp [hk]
      · exact List.mem_cons_of_mem _ (List.mem_filter.mpr ⟨ih h, by simpa using hk⟩)

theorem sum_map_add (f g : κ → Nat) (ks : List κ) :
    (ks.map (fun k => f k + g k)).sum = (ks.map f).sum + (ks.map g).sum := by
  induction ks with
  | nil => simp
  | cons k ks ih => simp [ih]; omega

theorem sum_indicator_of_mem [DecidableEq κ] (x : κ) (ks : List κ)
    (hnd : ks.Nodup) (hx : x ∈ ks) :
    (ks.map (fun k => if x = k then 1 else 0)).sum = 1 := by
  induction ks with
  | nil => cases hx
  | cons k ks ih =>
    rcases List.mem_cons.mp hx with h | h
    · subst h
      have hnot : x ∉ ks := (List.nodup_cons.mp hnd).1
      have : (ks.map (fun k => if x = k then 1 else 0)).sum = 0 := by
        rw [List.sum_eq_zero]
        intro n hn
        rcases List.mem_map.mp hn with ⟨k', hk', hval⟩
        have : x ≠ k' := fun he => hnot (he ▸ hk')
        simp [this] at hval
        omega
      simp [this]
    · have hne : x ≠ k := fun he => (List.nodup_cons.mp hnd).1 (he ▸ h)
      simp [hne, ih (List.nodup_cons.mp hnd).2 h]

theorem countP_sum_keys [DecidableEq κ] (key : α → κ) (l : List α)
    (ks : List κ) (hnd : ks.Nodup) (hcov : ∀ a ∈ l, key a ∈ ks) :
    (ks.map (fun k => l.countP (fun a => decide (key a = k)))).sum = l.length := by
  induction l with
  | nil => simp [List.countP_nil]
  | cons a l ih =>
    have hcov' : ∀ b ∈ l, key b ∈ ks := fun b hb => hcov b (List.mem_cons_of_mem _ hb)
    have hka : key a ∈ ks := hcov a (List.mem_cons_self _ _)
    have hsplit : ∀ k, (a :: l).countP (fun b => decide (key b = k)) =
        l.countP (fun b => decide (key b = k)) + (if key a = k then 1 else 0) := by
      intro k
      rw [List.countP_cons]
      by_cases h : key a = k <;> simp [h]
    calc (ks.map (fun k => (a :: l).countP (fun b => decide (key b = k)))).sum
        = (ks.map (fun k => l.countP (fun b => decide (key b = k)) +
            (if key a = k then 1 else 0))).sum := by
          congr 1
          exact List.map_congr_left (fun k _ => hsplit k)
      _ = (ks.map (fun k => l.countP (fun b => decide (key b = k)))).sum +
            (ks.map (fun k => if key a = k then 1 else 0)).sum :=
          sum_map_add _ _ ks
      _ = l.length + 1 := by
          rw [ih hcov', sum_indicator_of_mem (key a) ks hnd hka]
      _ = (a :: l).length := by simp

/-- The per-group counts of a `GROUP BY` result set sum to the number of
rows of the grouped table. -/
theorem sum_groupCounts [DecidableEq κ] (key : α → κ) (l : List α) :
    ((groupCounts key l).map Prod.snd).sum = l.length := by
  unfold groupCounts
  rw [List.map_map]
  exact countP_sum_keys key l (keysOf key l) (keysOf_nodup key l)
    (mem_keysOf key l)


theorem filterMap_none_fun (l : List α) :
    (l.filterMap (fun _ => (none : Option β))) = [] := by
  induction l with
  | nil => rfl
  | cons a l ih => simp [ih]

theorem filterMap_some_fun (f : α → β) (l : List α) :
    l.filterMap (fun a => some (f a)) = l.map f := by
  induction l with
  | nil => rfl
  | cons a l ih => simp [ih]

/-- C3: when the `pois` table has N > 0 rows, the sample POI listing of the
Domain Report Generator prints exactly min(N, 5) rows, and they are the first
min(N, 5) rows of the table in natural (insertion) order. -/
theorem samplePois_first_min (fs : List FileRow) (ps : List PoiRow)
    (rs : List RelRow) (es : List Unit) (os : List OutboxRow) (h : ps ≠ []) :
    samplePoiItems (reportOf fs ps rs es os).output
      = (ps.take 5).map (fun p => (p.file_path, p.name, p.type, p.start_line, p.end_line))
    ∧ (samplePoiItems (reportOf fs ps rs es os).output).length = min ps.length 5 := by
  have he : samplePoiItems (reportOf fs ps rs es os).output
      = (ps.take 5).map (fun p => (p.file_path, p.name, p.type, p.start_line, p.end_line)) := by
    obtain ⟨p, ps', rfl⟩ := List.exists_cons_of_ne_nil h
    by_cases hf : fs.length > 0 <;> by_cases hr : rs.length > 0 <;>
      by_cases ho : os.length > 0 <;>
      simp [reportOf, analyze_database, hf, hr, ho, samplePoiItems,
        List.filterMap_append, List.filterMap_map, Function.comp_def,
        ← List.map_take, filterMap_none_fun, filterMap_some_fun]
  refine ⟨he, ?_⟩
  rw [he]
  simp [List.length_take, Nat.min_comm]

/-- Witness for C3 at a one-row `pois` table. -/
theorem samplePois_first_min_witness :
    ([⟨SqlVal.int 1, SqlVal.int 2, SqlVal.int 3, SqlVal.int 4, SqlVal.int 5⟩] : List PoiRow) ≠ [] ∧
    (samplePoiItems (reportOf [] [⟨SqlVal.int 1, SqlVal.int 2, SqlVal.int 3, SqlVal.int 4, SqlVal.int 5⟩] [] [] []).output
      = (([⟨SqlVal.int 1, SqlVal.int 2, SqlVal.int 3, SqlVal.int 4, SqlVal.int 5⟩] : List PoiRow).take 5).map
          (fun p => (p.file_path, p.name, p.type, p.start_line, p.end_line))
    ∧ (samplePoiItems (reportOf [] [⟨SqlVal.int 1, SqlVal.int 2, SqlVal.int 3, SqlVal.int 4, SqlVal.int 5⟩] [] [] []).output).length
      = min ([⟨SqlVal.int 1, SqlVal.int 2, SqlVal.int 3, SqlVal.int 4, SqlVal.int 5⟩] : List PoiRow).length 5) :=
  ⟨by decide,
   samplePois_first_min [] [⟨SqlVal.int 1, SqlVal.int 2, SqlVal.int 3, SqlVal.int 4, SqlVal.int 5⟩] [] [] [] (by decide)⟩

/-- C9: when the `files` table has N > 0 rows, the Domain Report Generator
also prints a sample-files detail block: the first min(N, 5) rows' file_path
and status. -/
theorem sampleFiles_step (fs : List FileRow) (ps : List PoiRow)
    (rs : List RelRow) (es : List Unit) (os : List OutboxRow) (h : fs ≠ []) :
    sampleFileItems (reportOf fs ps rs es os).output
      = (fs.take 5).map (fun r => (r.file_path, r.status))
    ∧ (sampleFileItems (reportOf fs ps rs es os).output).length = min fs.length 5 := by
  have he : sampleFileItems (reportOf fs ps rs es os).output
      = (fs.take 5).map (fun r => (r.file_path, r.status)) := by
    obtain ⟨f, fs', rfl⟩ := List.exists_cons_of_ne_nil h
    rcases ps with _ | ⟨p, ps'⟩ <;> by_cases hr : rs.length > 0 <;>
      by_cases ho : os.length > 0 <;>
      simp [reportOf, analyze_database, hr, ho, sampleFileItems,
        List.filterMap_append, List.filterMap_map, Function.comp_def,
        ← List.map_take, filterMap_none_fun, filterMap_some_fun]
  refine ⟨he, ?_⟩
  rw [he]
  simp [List.length_take, Nat.min_comm]

/-- Witness for C9 at a two-row `files` table. -/
theorem sampleFiles_step_witness :
    ([⟨SqlVal.int 1, SqlVal.int 2⟩, ⟨SqlVal.int 3, SqlVal.int 4⟩] : List FileRow) ≠ [] ∧
    (sampleFileItems (reportOf [⟨SqlVal.int 1, SqlVal.int 2⟩, ⟨SqlVal.int 3, SqlVal.int 4⟩] [] [] [] []).output
      = (([⟨SqlVal.int 1, SqlVal.int 2⟩, ⟨SqlVal.int 3, SqlVal.int 4⟩] : List FileRow).take 5).map
          (fun r => (r.file_path, r.status))
    ∧ (sampleFileItems (reportOf [⟨SqlVal.int 1, SqlVal.int 2⟩, ⟨SqlVal.int 3, SqlVal.int 4⟩] [] [] [] []).output).length
      = min ([⟨SqlVal.int 1, SqlVal.int 2⟩, ⟨SqlVal.int 3, SqlVal.int 4⟩] : List FileRow).length 5) :=
  ⟨by decide,
   sampleFiles_step [⟨SqlVal.int 1, SqlVal.int 2⟩, ⟨SqlVal.int 3, SqlVal.int 4⟩] [] [] [] [] (by decide)⟩

/-- C2, counterexample: on the all-tables-empty database the run does succeed,
but the data-quality counts are NOT printed as 0 — the empty-name/empty-type
queries are skipped entirely (they sit inside the `poi_count > 0` guard of
analyzeDatabase.py line 80), so the claim that "every count, including the
empty-name and empty-type data-quality counts, prints 0" is false. -/
theorem empty_db_quality_counts_not_printed :
    (analyze_database emptyDB).errored = false
    ∧ Out.emptyNames 0 ∉ (analyze_database emptyDB).output
    ∧ Out.emptyTypes 0 ∉ (analyze_database emptyDB).output
    ∧ Query.countEmptyNames ∉ (analyze_database emptyDB).queries
    ∧ Query.countEmptyTypes ∉ (analyze_database emptyDB).queries := by
  decide

/-- C2, amended: on the all-tables-empty database the Domain Report Generator
completes without error and closes the connection, executes exactly the five
count queries, and prints exactly the header, the five table totals (each 0)
and the four separators — no detail blocks and, in particular, no data-quality
counts (those are skipped together with the other `pois` detail queries). -/
theorem empty_db_report :
    analyze_database emptyDB =
      ⟨[Query.countFiles, Query.countPois, Query.countRelationships,
        Query.countEvidence, Query.countOutbox],
       [Out.header, Out.filesProcessed 0, Out.separator, Out.poisExtracted 0,
        Out.separator, Out.relationshipsDiscovered 0, Out.separator,
        Out.evidenceEntries 0, Out.outboxEntries 0, Out.separator],
       false, 1⟩ := by
  decide

/-- C4: when the `pois` table is non-empty, the reported empty-name count is
exactly the number of `pois` rows whose name is NULL or the empty string, and
the reported empty-type count is exactly the number of rows whose type is
NULL or the empty string (each is printed exactly once). -/
theorem empty_name_type_counts (fs : List FileRow) (ps : List PoiRow)
    (rs : List RelRow) (es : List Unit) (os : List OutboxRow) (h : ps ≠ []) :
    emptyNameItems (reportOf fs ps rs es os).output
      = [ps.countP (fun p => isEmptyOrNull p.name)]
    ∧ emptyTypeItems (reportOf fs ps rs es os).output
      = [ps.countP (fun p => isEmptyOrNull p.type)] := by
  obtain ⟨p, ps', rfl⟩ := List.exists_cons_of_ne_nil h
  constructor <;>
  · by_cases hf : fs.length > 0 <;> by_cases hr : rs.length > 0 <;>
      by_cases ho : os.length > 0 <;>
      simp [reportOf, analyze_database, hf, hr, ho, emptyNameItems,
        emptyTypeItems, List.filterMap_append, List.filterMap_map,
        Function.comp_def, ← List.map_take, filterMap_none_fun,
        filterMap_some_fun]

/-- Witness for C4 at a mixed two-row `pois` table: one valid row, one row
with NULL name and empty-string type. -/
theorem empty_name_type_counts_witness :
    ([⟨SqlVal.int 1, SqlVal.int 2, SqlVal.int 3, SqlVal.int 4, SqlVal.int 5⟩,
      ⟨SqlVal.int 1, SqlVal.null, SqlVal.text "", SqlVal.int 4, SqlVal.int 5⟩] : List PoiRow) ≠ [] ∧
    (emptyNameItems (reportOf []
        [⟨SqlVal.int 1, SqlVal.int 2, SqlVal.int 3, SqlVal.int 4, SqlVal.int 5⟩,
         ⟨SqlVal.int 1, SqlVal.null, SqlVal.text "", SqlVal.int 4, SqlVal.int 5⟩] [] [] []).output
      = [([⟨SqlVal.int 1, SqlVal.int 2, SqlVal.int 3, SqlVal.int 4, SqlVal.int 5⟩,
           ⟨SqlVal.int 1, SqlVal.null, SqlVal.text "", SqlVal.int 4, SqlVal.int 5⟩] : List PoiRow).countP
            (fun p => isEmptyOrNull p.name)]
    ∧ emptyTypeItems (reportOf []
        [⟨SqlVal.int 1, SqlVal.int 2, SqlVal.int 3, SqlVal.int 4, SqlVal.int 5⟩,
         ⟨SqlVal.int 1, SqlVal.null, SqlVal.text "", SqlVal.int 4, SqlVal.int 5⟩] [] [] []).output
      = [([⟨SqlVal.int 1, SqlVal.int 2, SqlVal.int 3, SqlVal.int 4, SqlVal.int 5⟩,
           ⟨SqlVal.int 1, SqlVal.null, SqlVal.text "", SqlVal.int 4, SqlVal.int 5⟩] : List PoiRow).countP
            (fun p => isEmptyOrNull p.type)]) :=
  ⟨by decide,
   empty_name_type_counts []
     [⟨SqlVal.int 1, SqlVal.int 2, SqlVal.int 3, SqlVal.int 4, SqlVal.int 5⟩,
      ⟨SqlVal.int 1, SqlVal.null, SqlVal.text "", SqlVal.int 4, SqlVal.int 5⟩] [] [] [] (by decide)⟩

/-- C5: whenever a grouped breakdown is printed (pois by type, relationships
by type, relationships by status, outbox by event_type and processed), its
per-group counts sum to the total row count of the corresponding table. -/
theorem group_counts_sum (fs : List FileRow) (ps : List PoiRow)
    (rs : List RelRow) (es : List Unit) (os : List OutboxRow) :
    (ps ≠ [] → (poiTypeCountItems (reportOf fs ps rs es os).output).sum = ps.length)
  ∧ (rs ≠ [] → (relTypeCountItems (reportOf fs ps rs es os).output).sum = rs.length
      ∧ (relStatusCountItems (reportOf fs ps rs es os).output).sum = rs.length)
  ∧ (os ≠ [] → (outboxCountItems (reportOf fs ps rs es os).output).sum = os.length) := by
  refine ⟨fun hp => ?_, fun hr => ⟨?_, ?_⟩, fun ho => ?_⟩
  · obtain ⟨p, ps', rfl⟩ := List.exists_cons_of_ne_nil hp
    by_cases hf : fs.length > 0 <;> by_cases hr : rs.length > 0 <;>
      by_cases ho : os.length > 0 <;>
      simp [reportOf, analyze_database, hf, hr, ho, poiTypeCountItems,
        List.filterMap_append, List.filterMap_map, Function.comp_def,
        ← List.map_take, filterMap_none_fun, filterMap_some_fun,
        sum_groupCounts]
  · obtain ⟨r, rs', rfl⟩ := List.exists_cons_of_ne_nil hr
    rcases ps with _ | ⟨p, ps'⟩ <;> by_cases hf : fs.length > 0 <;>
      by_cases ho : os.length > 0 <;>
      simp [reportOf, analyze_database, hf, ho, relTypeCountItems,
        List.filterMap_append, List.filterMap_map, Function.comp_def,
        ← List.map_take, filterMap_none_fun, filterMap_some_fun,
        sum_groupCounts]
  · obtain ⟨r, rs', rfl⟩ := List.exists_cons_of_ne_nil hr
    rcases ps with _ | ⟨p, ps'⟩ <;> by_cases hf : fs.length > 0 <;>
      by_cases ho : os.length > 0 <;>
      simp [reportOf, analyze_database, hf, ho, relStatusCountItems,
        List.filterMap_append, List.filterMap_map, Function.comp_def,
        ← List.map_take, filterMap_none_fun, filterMap_some_fun,
        sum_groupCounts]
  · obtain ⟨o, os', rfl⟩ := List.exists_cons_of_ne_nil ho
    rcases ps with _ | ⟨p, ps'⟩ <;> by_cases hf : fs.length > 0 <;>
      by_cases hr : rs.length > 0 <;>
      simp [reportOf, analyze_database, hf, hr, outboxCountItems,
        List.filterMap_append, List.filterMap_map, Function.comp_def,
        ← List.map_take, filterMap_none_fun, filterMap_some_fun,
        sum_groupCounts]

/-- Witness for C5 at a database with two pois (one type), three
relationships (two types, two statuses) and two outbox rows. -/
theorem group_counts_sum_witness :
    (poiTypeCountItems (reportOf []
        [⟨SqlVal.int 1, SqlVal.int 2, SqlVal.text "f", SqlVal.int 4, SqlVal.int 5⟩,
         ⟨SqlVal.int 6, SqlVal.int 7, SqlVal.text "f", SqlVal.int 8, SqlVal.int 9⟩]
        [⟨SqlVal.text "CALLS", SqlVal.text "validated"⟩,
         ⟨SqlVal.text "CALLS", SqlVal.text "pending"⟩,
         ⟨SqlVal.text "IMPORTS", SqlVal.text "validated"⟩]
        [] [⟨SqlVal.text "E", SqlVal.int 0⟩, ⟨SqlVal.text "E", SqlVal.int 1⟩]).output).sum = 2
  ∧ (relTypeCountItems (reportOf []
        [⟨SqlVal.int 1, SqlVal.int 2, SqlVal.text "f", SqlVal.int 4, SqlVal.int 5⟩,
         ⟨SqlVal.int 6, SqlVal.int 7, SqlVal.text "f", SqlVal.int 8, SqlVal.int 9⟩]
        [⟨SqlVal.text "CALLS", SqlVal.text "validated"⟩,
         ⟨SqlVal.text "CALLS", SqlVal.text "pending"⟩,
         ⟨SqlVal.text "IMPORTS", SqlVal.text "validated"⟩]
        [] [⟨SqlVal.text "E", SqlVal.int 0⟩, ⟨SqlVal.text "E", SqlVal.int 1⟩]).output).sum = 3
  ∧ (outboxCountItems (reportOf []
        [⟨SqlVal.int 1, SqlVal.int 2, SqlVal.text "f", SqlVal.int 4, SqlVal.int 5⟩,
         ⟨SqlVal.int 6, SqlVal.int 7, SqlVal.text "f", SqlVal.int 8, SqlVal.int 9⟩]
        [⟨SqlVal.text "CALLS", SqlVal.text "validated"⟩,
         ⟨SqlVal.text "CALLS", SqlVal.text "pending"⟩,
         ⟨SqlVal.text "IMPORTS", SqlVal.text "validated"⟩]
        [] [⟨SqlVal.text "E", SqlVal.int 0⟩, ⟨SqlVal.text "E", SqlVal.int 1⟩]).output).sum = 2 :=
  ⟨(group_counts_sum []
      [⟨SqlVal.int 1, SqlVal.int 2, SqlVal.text "f", SqlVal.int 4, SqlVal.int 5⟩,
       ⟨SqlVal.int 6, SqlVal.int 7, SqlVal.text "f", SqlVal.int 8, SqlVal.int 9⟩]
      [⟨SqlVal.text "CALLS", SqlVal.text "validated"⟩,
       ⟨SqlVal.text "CALLS", SqlVal.text "pending"⟩,
       ⟨SqlVal.text "IMPORTS", SqlVal.text "validated"⟩]
      [] [⟨SqlVal.text "E", SqlVal.int 0⟩, ⟨SqlVal.text "E", SqlVal.int 1⟩]).1 (by decide),
   ((group_counts_sum []
      [⟨SqlVal.int 1, SqlVal.int 2, SqlVal.text "f", SqlVal.int 4, SqlVal.int 5⟩,
       ⟨SqlVal.int 6, SqlVal.int 7, SqlVal.text "f", SqlVal.int 8, SqlVal.int 9⟩]
      [⟨SqlVal.text "CALLS", SqlVal.text "validated"⟩,
       ⟨SqlVal.text "CALLS", SqlVal.text "pending"⟩,
       ⟨SqlVal.text "IMPORTS", SqlVal.text "validated"⟩]
      [] [⟨SqlVal.text "E", SqlVal.int 0⟩, ⟨SqlVal.text "E", SqlVal.int 1⟩]).2.1 (by decide)).1,
   (group_counts_sum []
      [⟨SqlVal.int 1, SqlVal.int 2, SqlVal.text "f", SqlVal.int 4, SqlVal.int 5⟩,
       ⟨SqlVal.int 6, SqlVal.int 7, SqlVal.text "f", SqlVal.int 8, SqlVal.int 9⟩]
      [⟨SqlVal.text "CALLS", SqlVal.text "validated"⟩,
       ⟨SqlVal.text "CALLS", SqlVal.text "pending"⟩,
       ⟨SqlVal.text "IMPORTS", SqlVal.text "validated"⟩]
      [] [⟨SqlVal.text "E", SqlVal.int 0⟩, ⟨SqlVal.text "E", SqlVal.int 1⟩]).2.2 (by decide)⟩

set_option maxHeartbeats 2000000 in
/-- C1: each table's detail step is guarded by its own count.  When a table's
count query returns 0, none of that table's detail or group-by queries run
and none of their output appears (only the count is printed); when the count
is positive, all of that table's detail queries run.  The
`relationship_evidence` table has no detail queries, so the claim is vacuous
for it. -/
theorem zero_count_guards (fs : List FileRow) (ps : List PoiRow)
    (rs : List RelRow) (es : List Unit) (os : List OutboxRow) :
    ((fs = [] → Out.filesProcessed 0 ∈ (reportOf fs ps rs es os).output
        ∧ Query.sampleFiles ∉ (reportOf fs ps rs es os).queries
        ∧ sampleFileItems (reportOf fs ps rs es os).output = [])
     ∧ (fs ≠ [] → Query.sampleFiles ∈ (reportOf fs ps rs es os).queries))
  ∧ ((ps = [] → Out.poisExtracted 0 ∈ (reportOf fs ps rs es os).output
        ∧ (∀ q ∈ poisDetailQueries, q ∉ (reportOf fs ps rs es os).queries)
        ∧ samplePoiItems (reportOf fs ps rs es os).output = []
        ∧ poiTypeCountItems (reportOf fs ps rs es os).output = []
        ∧ emptyNameItems (reportOf fs ps rs es os).output = []
        ∧ emptyTypeItems (reportOf fs ps rs es os).output = []
        ∧ poiFieldItems (reportOf fs ps rs es os).output = [])
     ∧ (ps ≠ [] → ∀ q ∈ poisDetailQueries, q ∈ (reportOf fs ps rs es os).queries))
  ∧ ((rs = [] → Out.relationshipsDiscovered 0 ∈ (reportOf fs ps rs es os).output
        ∧ (∀ q ∈ relsDetailQueries, q ∉ (reportOf fs ps rs es os).queries)
        ∧ relTypeCountItems (reportOf fs ps rs es os).output = []
        ∧ relStatusCountItems (reportOf fs ps rs es os).output = []
        ∧ (∀ n, Out.validatedRelationships n ∉ (reportOf fs ps rs es os).output))
     ∧ (rs ≠ [] → ∀ q ∈ relsDetailQueries, q ∈ (reportOf fs ps rs es os).queries))
  ∧ ((os = [] → Out.outboxEntries 0 ∈ (reportOf fs ps rs es os).output
        ∧ Query.outboxByTypeProcessed ∉ (reportOf fs ps rs es os).queries
        ∧ outboxCountItems (reportOf fs ps rs es os).output = [])
     ∧ (os ≠ [] → Query.outboxByTypeProcessed ∈ (reportOf fs ps rs es os).queries)) := by
  refine ⟨⟨fun hfz => ?_, fun hfpos => ?_⟩, ⟨fun hpz => ?_, fun hppos => ?_⟩,
    ⟨fun hrz => ?_, fun hrpos => ?_⟩, ⟨fun hoz => ?_, fun hopos => ?_⟩⟩
  · subst hfz
    rcases ps with _ | ⟨p, ps'⟩ <;> by_cases hr : rs.length > 0 <;>
      by_cases ho : os.length > 0 <;>
      simp [reportOf, analyze_database, hr, ho, sampleFileItems,
        List.filterMap_append, List.filterMap_map, Function.comp_def,
        ← List.map_take, filterMap_none_fun, filterMap_some_fun]
  · obtain ⟨f, fs', rfl⟩ := List.exists_cons_of_ne_nil hfpos
    rcases ps with _ | ⟨p, ps'⟩ <;> by_cases hr : rs.length > 0 <;>
      by_cases ho : os.length > 0 <;>
      simp [reportOf, analyze_database, hr, ho]
  · subst hpz
    by_cases hf : fs.length > 0 <;> by_cases hr : rs.length > 0 <;>
      by_cases ho : os.length > 0 <;>
      simp [reportOf, analyze_database, hf, hr, ho, poisDetailQueries,
        samplePoiItems, poiTypeCountItems, emptyNameItems, emptyTypeItems,
        poiFieldItems, List.filterMap_append, List.filterMap_map,
        Function.comp_def, ← List.map_take, filterMap_none_fun,
        filterMap_some_fun]
  · obtain ⟨p, ps', rfl⟩ := List.exists_cons_of_ne_nil hppos
    by_cases hf : fs.length > 0 <;> by_cases hr : rs.length > 0 <;>
      by_cases ho : os.length > 0 <;>
      simp [reportOf, analyze_database, hf, hr, ho, poisDetailQueries]
  · subst hrz
    rcases ps with _ | ⟨p, ps'⟩ <;> by_cases hf : fs.length > 0 <;>
      by_cases ho : os.length > 0 <;>
      simp [reportOf, analyze_database, hf, ho, relsDetailQueries,
        relTypeCountItems, relStatusCountItems, List.filterMap_append,
        List.filterMap_map, Function.comp_def, ← List.map_take,
        filterMap_none_fun, filterMap_some_fun]
  · obtain ⟨r, rs', rfl⟩ := List.exists_cons_of_ne_nil hrpos
    rcases ps with _ | ⟨p, ps'⟩ <;> by_cases hf : fs.length > 0 <;>
      by_cases ho : os.length > 0 <;>
      simp [reportOf, analyze_database, hf, ho, relsDetailQueries]
  · subst hoz
    rcases ps with _ | ⟨p, ps'⟩ <;> by_cases hf : fs.length > 0 <;>
      by_cases hr : rs.length > 0 <;>
      simp [reportOf, analyze_database, hf, hr, outboxCountItems,
        List.filterMap_append, List.filterMap_map, Function.comp_def,
        ← List.map_take, filterMap_none_fun, filterMap_some_fun]
  · obtain ⟨o, os', rfl⟩ := List.exists_cons_of_ne_nil hopos
    rcases ps with _ | ⟨p, ps'⟩ <;> by_cases hf : fs.length > 0 <;>
      by_cases hr : rs.length > 0 <;>
      simp [reportOf, analyze_database, hf, hr]

/-- Witness for C1 at an empty `files` table and a one-row `pois` table: the
files sample query is skipped, the pois group-by query runs. -/
theorem zero_count_guards_witness :
    Query.sampleFiles ∉ (reportOf []
      [⟨SqlVal.int 1, SqlVal.int 2, SqlVal.int 3, SqlVal.int 4, SqlVal.int 5⟩] [] [] []).queries
  ∧ Query.poisByType ∈ (reportOf []
      [⟨SqlVal.int 1, SqlVal.int 2, SqlVal.int 3, SqlVal.int 4, SqlVal.int 5⟩] [] [] []).queries :=
  ⟨((zero_count_guards []
      [⟨SqlVal.int 1, SqlVal.int 2, SqlVal.int 3, SqlVal.int 4, SqlVal.int 5⟩] [] [] []).1.1 rfl).2.1,
   (zero_count_guards []
      [⟨SqlVal.int 1, SqlVal.int 2, SqlVal.int 3, SqlVal.int 4, SqlVal.int 5⟩] [] [] []).2.1.2
     (by decide) Query.poisByType (by decide)⟩

theorem checkTablesLoop_all_idents (ts : List TableInfo) (qs : List CQuery)
    (out : List COut) (h : ∀ t ∈ ts, isSqlIdent t.name = true) :
    checkTablesLoop ts qs out =
      ⟨qs ++ ts.flatMap (fun t => [CQuery.tableInfo t.name, CQuery.countRows t.name]),
       out ++ ts.flatMap (fun t => [COut.structureHeader t.name]
         ++ t.columns.map (fun c => COut.columnLine c.name c.type)
         ++ [COut.rowCount t.rowCount]),
       false, 1⟩ := by
  induction ts generalizing qs out with
  | nil => simp [checkTablesLoop]
  | cons t ts ih =>
    have ht := h t (List.mem_cons_self _ _)
    rw [checkTablesLoop]
    simp only [ht, if_true]
    rw [ih _ _ (fun u hu => h u (List.mem_cons_of_mem _ hu))]
    simp [List.append_assoc]

theorem checkTablesLoop_errored_iff (ts : List TableInfo) (qs : List CQuery)
    (out : List COut) :
    (checkTablesLoop ts qs out).errored = false ↔
      ∀ t ∈ ts, isSqlIdent t.name = true := by
  induction ts generalizing qs out with
  | nil => simp [checkTablesLoop]
  | cons t ts ih =>
    by_cases h : isSqlIdent t.name <;>
      simp [checkTablesLoop, h, ih]

theorem checkTablesLoop_closes (ts : List TableInfo) (qs : List CQuery)
    (out : List COut) :
    (checkTablesLoop ts qs out).closes =
      if (checkTablesLoop ts qs out).errored then 0 else 1 := by
  induction ts generalizing qs out with
  | nil => simp [checkTablesLoop]
  | cons t ts ih =>
    by_cases h : isSqlIdent t.name <;> simp [checkTablesLoop, h, ih]

theorem checkTablesLoop_error_last (ts : List TableInfo) (qs : List CQuery)
    (out : List COut) (he : (checkTablesLoop ts qs out).errored = true) :
    ∃ t, t ∈ ts ∧ isSqlIdent t.name = false
      ∧ (checkTablesLoop ts qs out).queries.getLast?
          = some (CQuery.tableInfo t.name) := by
  induction ts generalizing qs out with
  | nil => simp [checkTablesLoop] at he
  | cons t ts ih =>
    by_cases h : isSqlIdent t.name
    · rw [checkTablesLoop] at he ⊢
      simp only [h, if_true] at he ⊢
      obtain ⟨u, hu, hbad, hl⟩ := ih _ _ he
      exact ⟨u, List.mem_cons_of_mem _ hu, hbad, hl⟩
    · refine ⟨t, List.mem_cons_self _ _, by simpa using h, ?_⟩
      rw [checkTablesLoop]
      simp [h, List.getLast?_concat]

theorem analyze_errored_iff (db : DB) :
    (analyze_database db).errored = false ↔ allTablesPresent db := by
  obtain ⟨f, p, r, e, o⟩ := db
  rcases f with _ | fs <;> rcases p with _ | ps <;> rcases r with _ | rs <;>
    rcases e with _ | es <;> rcases o with _ | os <;>
    simp [analyze_database, allTablesPresent]

theorem analyze_closes (db : DB) :
    (analyze_database db).closes =
      if (analyze_database db).errored then 0 else 1 := by
  obtain ⟨f, p, r, e, o⟩ := db
  rcases f with _ | fs <;> rcases p with _ | ps <;> rcases r with _ | rs <;>
    rcases e with _ | es <;> rcases o with _ | os <;>
    simp [analyze_database]

theorem analyze_error_last (db : DB)
    (he : (analyze_database db).errored = true) :
    ∃ q, (analyze_database db).queries.getLast? = some q ∧ queryFails db q := by
  obtain ⟨f, p, r, e, o⟩ := db
  rcases f with _ | fs
  · exact ⟨Query.countFiles, by simp [analyze_database], rfl⟩
  rcases p with _ | ps
  · exact ⟨Query.countPois, by simp [analyze_database, List.getLast?_concat], rfl⟩
  rcases r with _ | rs
  · exact ⟨Query.countRelationships,
      by simp [analyze_database, List.getLast?_concat], rfl⟩
  rcases e with _ | es
  · exact ⟨Query.countEvidence,
      by simp [analyze_database, List.getLast?_concat], rfl⟩
  rcases o with _ | os
  · exact ⟨Query.countOutbox,
      by simp [analyze_database, List.getLast?_concat], rfl⟩
  · simp [analyze_database] at he

theorem find_name_of_nodup (ts : List TableInfo) (t : TableInfo) (ht : t ∈ ts)
    (hnd : (ts.map TableInfo.name).Nodup) :
    ts.find? (fun u => u.name == t.name) = some t := by
  induction ts with
  | nil => cases ht
  | cons u ts ih =>
    rcases List.mem_cons.mp ht with h | h
    · subst h; simp [List.find?_cons]
    · have hmem : t.name ∈ ts.map TableInfo.name :=
        List.mem_map.mpr ⟨t, h, rfl⟩
      have hne : (u.name == t.name) = false := by
        have := (List.nodup_cons.mp hnd).1
        simp only [beq_eq_false_iff_ne, ne_eq]
        intro he
        exact this (he ▸ hmem)
      rw [List.find?_cons, hne]
      exact ih h (List.nodup_cons.mp hnd).2

set_option maxHeartbeats 1000000 in
/-- C6, amended: for every database all of whose catalog table names are
plain (unquoted-safe) SQL identifiers, the Table Lister runs without error,
first lists exactly the catalog's tables in order, then for each table prints
every column's name and declared type in schema order followed by its row
count, and that printed row count agrees with a direct `COUNT(*)` query on
the table. -/
theorem checkTables_lists_catalog (ts : List TableInfo)
    (hid : ∀ t ∈ ts, isSqlIdent t.name = true)
    (hnd : (ts.map TableInfo.name).Nodup) :
    (checkTables ⟨ts⟩).errored = false
  ∧ (checkTables ⟨ts⟩).output =
      [COut.tablesHeader] ++ ts.map (fun t => COut.tableName t.name)
        ++ ts.flatMap (fun t => [COut.structureHeader t.name]
             ++ t.columns.map (fun c => COut.columnLine c.name c.type)
             ++ [COut.rowCount t.rowCount])
  ∧ (∀ t ∈ ts, count_star ⟨ts⟩ t.name = some t.rowCount) := by
  refine ⟨?_, ?_, ?_⟩
  · rw [checkTables, checkTablesLoop_all_idents ts _ _ hid]
  · rw [checkTables, checkTablesLoop_all_idents ts _ _ hid]
  · intro t ht
    unfold count_star
    rw [find_name_of_nodup ts t ht hnd]
    rfl

/-- Witness for C6 at a two-table catalog with identifier names. -/
theorem checkTables_lists_catalog_witness :
    (checkTables ⟨[⟨"files", [⟨"file_path", "TEXT"⟩, ⟨"status", "TEXT"⟩], 2⟩,
                   ⟨"pois", [⟨"name", "TEXT"⟩], 0⟩]⟩).errored = false
  ∧ (checkTables ⟨[⟨"files", [⟨"file_path", "TEXT"⟩, ⟨"status", "TEXT"⟩], 2⟩,
                   ⟨"pois", [⟨"name", "TEXT"⟩], 0⟩]⟩).output =
      [COut.tablesHeader]
        ++ ([⟨"files", [⟨"file_path", "TEXT"⟩, ⟨"status", "TEXT"⟩], 2⟩,
             ⟨"pois", [⟨"name", "TEXT"⟩], 0⟩] : List TableInfo).map
              (fun t => COut.tableName t.name)
        ++ ([⟨"files", [⟨"file_path", "TEXT"⟩, ⟨"status", "TEXT"⟩], 2⟩,
             ⟨"pois", [⟨"name", "TEXT"⟩], 0⟩] : List TableInfo).flatMap
              (fun t => [COut.structureHeader t.name]
                ++ t.columns.map (fun c => COut.columnLine c.name c.type)
                ++ [COut.rowCount t.rowCount])
  ∧ (∀ t ∈ ([⟨"files", [⟨"file_path", "TEXT"⟩, ⟨"status", "TEXT"⟩], 2⟩,
             ⟨"pois", [⟨"name", "TEXT"⟩], 0⟩] : List TableInfo),
       count_star ⟨[⟨"files", [⟨"file_path", "TEXT"⟩, ⟨"status", "TEXT"⟩], 2⟩,
                    ⟨"pois", [⟨"name", "TEXT"⟩], 0⟩]⟩ t.name = some t.rowCount) :=
  checkTables_lists_catalog
    [⟨"files", [⟨"file_path", "TEXT"⟩, ⟨"status", "TEXT"⟩], 2⟩,
     ⟨"pois", [⟨"name", "TEXT"⟩], 0⟩] (by decide) (by decide)

/-- C6, counterexample: a valid database may contain a table whose name is
not a plain identifier (here `"my table"`); the Table Lister then lists the
table but errors on its detail queries, so neither its columns nor its row
count are printed — the claim as stated (for every valid database) fails. -/
theorem checkTables_bad_name_counterexample :
    (⟨"my table", [⟨"id", "INTEGER"⟩], 3⟩ : TableInfo)
        ∈ (SchemaDB.mk [⟨"my table", [⟨"id", "INTEGER"⟩], 3⟩]).tables
  ∧ COut.tableName "my table"
      ∈ (checkTables ⟨[⟨"my table", [⟨"id", "INTEGER"⟩], 3⟩]⟩).output
  ∧ (checkTables ⟨[⟨"my table", [⟨"id", "INTEGER"⟩], 3⟩]⟩).errored = true
  ∧ COut.rowCount 3 ∉ (checkTables ⟨[⟨"my table", [⟨"id", "INTEGER"⟩], 3⟩]⟩).output
  ∧ COut.columnLine "id" "INTEGER"
      ∉ (checkTables ⟨[⟨"my table", [⟨"id", "INTEGER"⟩], 3⟩]⟩).output := by
  decide

/-- C7: in both scripts, a run succeeds (exit code 0) exactly when no query
fails; when a query fails, it is the last query executed — nothing after it
runs — and the script ends errored (nonzero exit).  A query of
`analyze_database` fails exactly when its table is missing; a per-table query
of the Table Lister fails exactly when the unquoted interpolated name does
not parse as an identifier. -/
theorem error_propagation (db : DB) (ts : List TableInfo) :
    ((analyze_database db).errored = false ↔ allTablesPresent db)
  ∧ (exitCode (analyze_database db) = 0 ↔ (analyze_database db).errored = false)
  ∧ ((analyze_database db).errored = true →
      ∃ q, (analyze_database db).queries.getLast? = some q ∧ queryFails db q)
  ∧ ((checkTables ⟨ts⟩).errored = false ↔ ∀ t ∈ ts, isSqlIdent t.name = true)
  ∧ (cExitCode (checkTables ⟨ts⟩) = 0 ↔ (checkTables ⟨ts⟩).errored = false)
  ∧ ((checkTables ⟨ts⟩).errored = true →
      ∃ t, t ∈ ts ∧ isSqlIdent t.name = false
        ∧ (checkTables ⟨ts⟩).queries.getLast?
            = some (CQuery.tableInfo t.name)) := by
  refine ⟨analyze_errored_iff db, ?_, analyze_error_last db, ?_, ?_, ?_⟩
  · unfold exitCode
    cases (analyze_database db).errored <;> simp
  · exact checkTablesLoop_errored_iff ts _ _
  · unfold cExitCode
    cases (checkTables ⟨ts⟩).errored <;> simp
  · exact checkTablesLoop_error_last ts _ _

/-- Witness for C7: a database missing its `pois` table errors with
`countPois` as the last executed query; a good one-table catalog succeeds. -/
theorem error_propagation_witness :
    (∃ q, (analyze_database ⟨some [], none, none, none, none⟩).queries.getLast?
        = some q ∧ queryFails ⟨some [], none, none, none, none⟩ q)
  ∧ ((checkTables ⟨[⟨"files", [], 0⟩]⟩).errored = false ↔
      ∀ t ∈ ([⟨"files", [], 0⟩] : List TableInfo), isSqlIdent t.name = true) :=
  ⟨(error_propagation ⟨some [], none, none, none, none⟩ []).2.2.1 (by decide),
   (error_propagation ⟨some [], none, none, none, none⟩ [⟨"files", [], 0⟩]).2.2.2.1⟩

/-- C8: in both scripts the connection is closed exactly once when every
query succeeds, and not closed at all when a query raises (the `conn.close()`
at the end of the linear path is never reached). -/
theorem connection_close (db : DB) (ts : List TableInfo) :
    ((analyze_database db).closes = 1 ↔ allTablesPresent db)
  ∧ ((analyze_database db).errored = true → (analyze_database db).closes = 0)
  ∧ ((checkTables ⟨ts⟩).closes = 1 ↔ ∀ t ∈ ts, isSqlIdent t.name = true)
  ∧ ((checkTables ⟨ts⟩).errored = true → (checkTables ⟨ts⟩).closes = 0) := by
  have ha := analyze_closes db
  have hc := checkTablesLoop_closes ts [CQuery.masterTables]
    ([COut.tablesHeader] ++ ts.map (fun t => COut.tableName t.name))
  refine ⟨?_, ?_, ?_, ?_⟩
  · rw [ha, ← analyze_errored_iff db]
    cases (analyze_database db).errored <;> simp
  · intro he; rw [ha, he]; rfl
  · rw [show checkTables ⟨ts⟩ = checkTablesLoop ts [CQuery.masterTables]
        ([COut.tablesHeader] ++ ts.map (fun t => COut.tableName t.name)) from rfl,
      hc, ← checkTablesLoop_errored_iff ts]
    cases (checkTablesLoop ts [CQuery.masterTables]
      ([COut.tablesHeader] ++ ts.map (fun t => COut.tableName t.name))).errored <;> simp
  · intro he
    rw [show checkTables ⟨ts⟩ = checkTablesLoop ts [CQuery.masterTables]
        ([COut.tablesHeader] ++ ts.map (fun t => COut.tableName t.name)) from rfl] at he ⊢
    rw [hc, he]; rfl

/-- Witness for C8: the all-empty-tables database closes its connection once;
a database with a missing table never closes it. -/
theorem connection_close_witness :
    ((analyze_database emptyDB).closes = 1 ↔ allTablesPresent emptyDB)
  ∧ (analyze_database ⟨none, none, none, none, none⟩).closes = 0 :=
  ⟨(connection_close emptyDB []).1,
   (connection_close ⟨none, none, none, none, none⟩ []).2.1 (by decide)⟩

/-- C10: the Table Lister splices catalog-reported table names into its
per-table SQL unquoted (checkTables.py lines 18 and 24), so a valid database
containing a table whose name is not a plain identifier — here one with a
hyphen — makes the inspection of that table raise even though the table
exists, aborting the script with a nonzero exit code. -/
theorem unquoted_interpolation_unsafe :
    isSqlIdent "my-table" = false
  ∧ (⟨"my-table", [⟨"id", "INTEGER"⟩], 1⟩ : TableInfo)
      ∈ (SchemaDB.mk [⟨"my-table", [⟨"id", "INTEGER"⟩], 1⟩]).tables
  ∧ (checkTables ⟨[⟨"my-table", [⟨"id", "INTEGER"⟩], 1⟩]⟩).errored = true
  ∧ (checkTables ⟨[⟨"my-table", [⟨"id", "INTEGER"⟩], 1⟩]⟩).queries.getLast?
      = some (CQuery.tableInfo "my-table")
  ∧ cExitCode (checkTables ⟨[⟨"my-table", [⟨"id", "INTEGER"⟩], 1⟩]⟩) = 1 := by
  decide
